import Mathlib

/-!
# VKinder — verification of the spec against the source

Shallow embedding of the VKinder matching core (`src/vk_service.py`,
`src/database.py`) and proofs of the spec's testable properties.

In the Python source the class `VKService` defines `_build_search_params`,
`search_people`, `get_popular_photos` and `_calculate_age` twice; Python
binds the *second* textual definition, so the second definition of each is
the effective one.  Both definitions of `_build_search_params` are embedded
here (`build_search_params_v1` for the first textual definition,
`build_search_params_v2` for the second, effective one).

String primitives are modelled over `List Char` so that every definition
reduces inside the kernel.
-/

namespace VKinder

/-! ## String helpers modelling Python built-ins -/

/-- Model of Python `str.lower()` restricted to the alphabets that occur in
this code base: ASCII `A`–`Z` and Cyrillic `А`–`Я` (U+0410–U+042F) map down
by 32 code points, and `Ё` (U+0401) maps to `ё` (U+0451). -/
def pyLowerChar (c : Char) : Char :=
  if 'A' ≤ c && c ≤ 'Z' then Char.ofNat (c.toNat + 32)
  else if 0x410 ≤ c.toNat && c.toNat ≤ 0x42F then Char.ofNat (c.toNat + 32)
  else if c.toNat = 0x401 then Char.ofNat 0x451
  else c

/-- Model of Python `str.lower()` (character-wise, see `pyLowerChar`). -/
def pyLower (s : String) : String :=
  ⟨s.data.map pyLowerChar⟩

/-- Model of Python `str.strip()`: drop whitespace from both ends. -/
def pyStrip (s : String) : String :=
  ⟨((s.data.dropWhile Char.isWhitespace).reverse.dropWhile Char.isWhitespace).reverse⟩

/-- Model of Python `s.replace('ё', 'е')`: the pattern is a single
character, so the replacement is a character map. -/
def replaceYo (s : String) : String :=
  ⟨s.data.map (fun c => if c = 'ё' then 'е' else c)⟩

/-- Split a character list on a separator character, keeping empty pieces,
as Python `str.split(sep)` does with a one-character separator. -/
def splitOnCharList (sep : Char) : List Char → List (List Char)
  | [] => [[]]
  | c :: rest =>
      let r := splitOnCharList sep rest
      if c = sep then [] :: r
      else
        match r with
        | [] => [[c]]
        | g :: gs => (c :: g) :: gs

/-- Model of Python `s.split('.')` (and of any one-character separator). -/
def pySplit (sep : Char) (s : String) : List String :=
  (splitOnCharList sep s.data).map (fun cs => ⟨cs⟩)

/-- Digit run to number, for `pyInt`. -/
def digitsToNat (cs : List Char) : Nat :=
  cs.foldl (fun acc c => acc * 10 + (c.toNat - 48)) 0

/-- Model of Python `int(s)` on the inputs this program feeds it: an
optional sign followed by at least one ASCII digit parses; everything else
raises `ValueError`, modelled as `none`. -/
def pyInt (s : String) : Option Int :=
  match s.data with
  | '-' :: rest =>
      if rest ≠ [] && rest.all Char.isDigit then some (-(digitsToNat rest : Int)) else none
  | '+' :: rest =>
      if rest ≠ [] && rest.all Char.isDigit then some (digitsToNat rest : Int) else none
  | cs =>
      if cs ≠ [] && cs.all Char.isDigit then some (digitsToNat cs : Int) else none

/-! ## `VKService._calculate_age` (second definition, lines 425–448;
textually identical to the first, lines 228–251) -/

/-- Embedding of `VKService._calculate_age`.  `current_year` stands for
`time.localtime().tm_year`; an absent (`None`) birth date is represented by
the empty string, which the source treats identically (`if not bdate`). -/
def calculate_age (current_year : Int) (bdate : String) : Option Int :=
  if bdate = "" then none
  else
    let date_parts := pySplit '.' bdate
    if date_parts.length < 3 then none
    else
      match pyInt (date_parts.getD 2 ("")) with
      | none => none
      | some birth_year =>
          let age := current_year - birth_year
          if 10 ≤ age ∧ age ≤ 100 then some age else none

/-! ## Configuration and static tables

`config.py` is imported by the source but is not part of `src/`, so its two
tables are modelled from the spec. -/

/-- Modelled from the spec: the search configuration surface consumed by the
core (`SEARCH_CONFIG` in the missing `config.py`).  §6 gives the values:
`searchCount` default 100, `ageRange` default 5, `maxPhotos` default 3,
`minPhotoLikes` default 1 — the same literals the source passes as `.get`
defaults. -/
structure Config where
  count : Int
  age_range : Int
  min_photo_likes : Nat
  max_photos : Nat
deriving DecidableEq, Repr

/-- Modelled from the spec: the default configuration values of §6. -/
def defaultConfig : Config :=
  { count := 100, age_range := 5, min_photo_likes := 1, max_photos := 3 }

/-- Modelled from the spec: the static city-name→identifier table (`CITIES`
in the missing `config.py`).  §8 fixes `"москва" ↦ 1`; a second entry keeps
the table from being a singleton.  Keys are lowercase, trimmed and contain
no `ё`, as the normalization in §4.2 step 5 presupposes. -/
def CITIES : List (String × Int) :=
  [("москва", 1), ("санкт-петербург", 2)]

/-- Dictionary lookup `CITIES[city]` / membership `city in CITIES`. -/
def citiesLookup (city : String) : Option Int :=
  (CITIES.find? (fun p => p.1 = city)).map Prod.snd

/-! ## Requester profile and search parameters -/

/-- The `user_info` dictionary as consumed by `_build_search_params`:
`user_info.get('sex', 0)` collapses an absent sex to `0`, and
`user_info.get('city', '')` collapses an absent city to `""`, so those two
defaults are folded into the representation; a missing or `None` age is
`none`. -/
structure UserInfo where
  sex : Int
  age : Option Int
  city : String
deriving DecidableEq, Repr

/-- The parameter dictionary returned by `_build_search_params`.  Keys that
a branch may leave unset (`country`, `sex`, `city`) are `Option`s; the
remaining keys are always written. -/
structure SearchParams where
  count : Int
  fields : String
  has_photo : Int
  sort : Int
  country : Option Int
  sex : Option Int
  age_from : Int
  age_to : Int
  city : Option Int
deriving DecidableEq, Repr

/-- The sex-targeting step shared verbatim by both definitions of
`_build_search_params`: `1 ↦ 2`, `2 ↦ 1`, anything else leaves the `sex`
key unset. -/
def targetSex (user_sex : Int) : Option Int :=
  if user_sex = 1 then some 2
  else if user_sex = 2 then some 1
  else none

/-- The age-band step shared verbatim by both definitions of
`_build_search_params`: Python's `if user_age:` is true exactly for a
present, non-zero age. -/
def ageBand (cfg : Config) (user_age : Option Int) : Int × Int :=
  match user_age with
  | some a => if a ≠ 0 then (max 18 (a - cfg.age_range), min 80 (a + cfg.age_range)) else (18, 35)
  | none => (18, 35)

/-- City lookup of the first `_build_search_params`: iterate over `CITIES`
and take the first entry whose key equals the normalized or the raw form. -/
def cityLookupV1 (city_normalized city : String) : Option Int :=
  (CITIES.find? (fun p => city_normalized = p.1 || city = p.1)).map Prod.snd

/-- Embedding of the first textual `VKService._build_search_params`
(`src/vk_service.py` lines 173–226): sets `country = 1`, lowercases, strips
and `ё`-folds the city, and matches either the normalized or the raw form
against `CITIES`. -/
def build_search_params_v1 (cfg : Config) (user_info : UserInfo) : SearchParams :=
  let band := ageBand cfg user_info.age
  let city := pyStrip (pyLower user_info.city)
  let city_normalized := replaceYo city
  { count := cfg.count
    fields := "bdate,city,photo_100,sex"
    has_photo := 1
    sort := 0
    country := some 1
    sex := targetSex user_info.sex
    age_from := band.1
    age_to := band.2
    city := cityLookupV1 city_normalized city }

/-- Embedding of the second textual `VKService._build_search_params`
(`src/vk_service.py` lines 391–423) — the definition Python binds on the
class: no `country` key, city only lowercased, and `params['city']` set
only when `city` is truthy and a key of `CITIES`. -/
def build_search_params_v2 (cfg : Config) (user_info : UserInfo) : SearchParams :=
  let band := ageBand cfg user_info.age
  let city := pyLower user_info.city
  { count := cfg.count
    fields := "bdate,city,photo_100,sex"
    has_photo := 1
    sort := 0
    country := none
    sex := targetSex user_info.sex
    age_from := band.1
    age_to := band.2
    city := if city ≠ "" ∧ (citiesLookup city).isSome then citiesLookup city else none }

/-! ## Stable descending sort

`photos.sort(key=…, reverse=True)` and SQL `ORDER BY created_at DESC` are
stable descending sorts by a numeric key; both are modelled by one
insertion sort.  An element is inserted after every earlier-inserted
element of strictly larger key and before the first element of smaller or
equal key, which is exactly stable-descending order. -/

/-- Insert `x` into `l` keeping larger keys first; on ties `x` goes first
(its origin is earlier in the input than everything already in `l`). -/
def insertDesc (key : α → Nat) (x : α) : List α → List α
  | [] => [x]
  | y :: ys => if key x < key y then y :: insertDesc key x ys else x :: y :: ys

/-- Stable descending insertion sort by a numeric key. -/
def stableSortDesc (key : α → Nat) : List α → List α
  | [] => []
  | x :: xs => insertDesc key x (stableSortDesc key xs)

/-! ## `VKService.get_popular_photos` (second definition, lines 343–389;
textually identical to the first, lines 125–171) -/

/-- A photo item of the `photos.get` response.  The source reads
`x.get('likes', {}).get('count', 0)` and the same for comments, so absent
counters collapse to `0` in the representation. -/
structure Photo where
  id : Int
  likes : Nat
  comments : Nat
deriving DecidableEq, Repr

/-- The sort key of `get_popular_photos`: likes plus comments. -/
def score (p : Photo) : Nat :=
  p.likes + p.comments

/-- Embedding of the ranking step of `VKService.get_popular_photos`, acting
on the `items` of the (external) `photos.get` response: stable-sort by
score descending, keep photos with at least `min_photo_likes` likes, fall
back to the whole sorted list when fewer than 3 remain, truncate to
`max_photos`. -/
def get_popular_photos (cfg : Config) (items : List Photo) : List Photo :=
  let photos := stableSortDesc score items
  let popular_photos := photos.filter (fun p => cfg.min_photo_likes ≤ p.likes)
  let popular_photos := if popular_photos.length < 3 ∧ photos ≠ [] then photos else popular_photos
  popular_photos.take cfg.max_photos

/-! ## `VKService.search_people` (second definition, lines 291–341) -/

/-- Substring test on character lists: Python's `'camera' in s`. -/
def hasInfixCh (pat : List Char) : List Char → Bool
  | [] => pat.isPrefixOf []
  | c :: cs => pat.isPrefixOf (c :: cs) || hasInfixCh pat cs

/-- Python truthiness of `user.get('deactivated')`: the key may be absent
(`none`) or hold a string; only a non-empty string is truthy. -/
def truthyOptStr : Option String → Bool
  | none => false
  | some s => s ≠ ""

/-- A raw `users.search` item as read by the loop in `search_people`.
`city` holds `user.get('city', {}).get('title', '')`, collapsed to a plain
string as the source does. -/
structure RawUser where
  id : Int
  first_name : String
  last_name : String
  bdate : String
  deactivated : Option String
  photo_100 : Option String
  city : String
  sex : Int
deriving DecidableEq, Repr

/-- A normalized candidate dictionary built inside `search_people`. -/
structure Candidate where
  id : Int
  first_name : String
  last_name : String
  age : Option Int
  city : String
  sex : Int
deriving DecidableEq, Repr

/-- The candidate dictionary built for one surviving raw user. -/
def mkCandidate (current_year : Int) (u : RawUser) : Candidate :=
  { id := u.id
    first_name := u.first_name
    last_name := u.last_name
    age := calculate_age current_year u.bdate
    city := u.city
    sex := u.sex }

/-- The condition under which the loop keeps a raw user: not flagged
deactivated, and the profile photo URL is present, non-empty and not the
generic camera placeholder. -/
def keepUser (u : RawUser) : Bool :=
  !truthyOptStr u.deactivated
    && (u.photo_100.getD ("") ≠ "")
    && !hasInfixCh ("camera").data (u.photo_100.getD ("")).data

/-- The candidate-building loop of `search_people`, with the two `continue`
branches in source order. -/
def processItems (current_year : Int) : List RawUser → List Candidate
  | [] => []
  | u :: rest =>
      if truthyOptStr u.deactivated then processItems current_year rest
      else if (u.photo_100.getD ("") = "") || hasInfixCh ("camera").data (u.photo_100.getD ("")).data then
        processItems current_year rest
      else mkCandidate current_year u :: processItems current_year rest

/-- Embedding of `VKService.search_people`, acting on the `items` of the
(external) `users.search` response.  `random.shuffle` is modelled by an
explicit reordering function `shuffle`; the source then truncates to 50. -/
def search_people (current_year : Int) (shuffle : List Candidate → List Candidate)
    (items : List RawUser) : List Candidate :=
  (shuffle (processItems current_year items)).take 50

/-! ## `Database` (`src/database.py`): favorites and blacklist -/

/-- A row of the `favorites` table. -/
structure FavRow where
  user_id : Int
  candidate_id : Int
  first_name : String
  last_name : String
  created_at : Nat
deriving DecidableEq, Repr

/-- A row of the `blacklist` table. -/
structure BlackRow where
  user_id : Int
  candidate_id : Int
deriving DecidableEq, Repr

/-- The relational state touched by the embedded operations: the set of
existing `user_id`s (for the foreign keys of `favorites` and `blacklist`),
the two tables, and a logical clock supplying the strictly increasing
`created_at` timestamps. -/
structure DBState where
  users : List Int
  favorites : List FavRow
  blacklist : List BlackRow
  clock : Nat
deriving DecidableEq, Repr

/-- Embedding of `Database.add_to_favorites`: a plain `INSERT` under
`UNIQUE(user_id, candidate_id)` and a foreign key on `user_id`; any
`psycopg2.IntegrityError` (duplicate pair or missing user) is caught and
reported as `false`, otherwise the row is inserted and the call reports
`true`. -/
def add_to_favorites (db : DBState) (user_id candidate_id : Int)
    (first_name last_name : String) : Bool × DBState :=
  if user_id ∉ db.users then (false, db)
  else if db.favorites.any (fun r => r.user_id == user_id && r.candidate_id == candidate_id) then
    (false, db)
  else
    (true, { db with
      favorites := db.favorites ++ [⟨user_id, candidate_id, first_name, last_name, db.clock⟩]
      clock := db.clock + 1 })

/-- Embedding of `Database.add_to_blacklist`: `INSERT … ON CONFLICT
(user_id, candidate_id) DO NOTHING`, reporting `true` whether or not the
row already existed; a foreign-key violation (missing user) is a
`psycopg2.Error` caught and reported as `false`. -/
def add_to_blacklist (db : DBState) (user_id candidate_id : Int) : Bool × DBState :=
  if user_id ∉ db.users then (false, db)
  else if db.blacklist.any (fun r => r.user_id == user_id && r.candidate_id == candidate_id) then
    (true, db)
  else
    (true, { db with blacklist := db.blacklist ++ [⟨user_id, candidate_id⟩] })

/-- Embedding of `Database.get_favorites`: rows of the user, newest first
(`ORDER BY created_at DESC`). -/
def get_favorites (db : DBState) (user_id : Int) : List FavRow :=
  stableSortDesc (fun r => r.created_at) (db.favorites.filter (fun r => r.user_id == user_id))

/-- Embedding of `Database.get_blacklist`: the candidate ids of the user's
blacklist rows. -/
def get_blacklist (db : DBState) (user_id : Int) : List Int :=
  (db.blacklist.filter (fun r => r.user_id == user_id)).map (fun r => r.candidate_id)

/-! ## Lemmas about the stable descending sort -/

theorem insertDesc_perm (key : α → Nat) (x : α) (l : List α) :
    List.Perm (insertDesc key x l) (x :: l) := by
  induction l with
  | nil => simp [insertDesc]
  | cons y ys ih =>
    simp only [insertDesc]
    by_cases hxy : key x < key y
    · rw [if_pos hxy]
      exact (ih.cons y).trans (List.Perm.swap x y ys)
    · rw [if_neg hxy]

theorem stableSortDesc_perm (key : α → Nat) (l : List α) :
    List.Perm (stableSortDesc key l) l := by
  induction l with
  | nil => simp [stableSortDesc]
  | cons x xs ih => exact (insertDesc_perm key x _).trans (ih.cons x)

theorem insertDesc_pairwise (key : α → Nat) (x : α) (l : List α)
    (h : l.Pairwise (fun a b => key b ≤ key a)) :
    (insertDesc key x l).Pairwise (fun a b => key b ≤ key a) := by
  induction l with
  | nil => simp [insertDesc]
  | cons y ys ih =>
    rcases List.pairwise_cons.mp h with ⟨hy, hys⟩
    simp only [insertDesc]
    by_cases hxy : key x < key y
    · rw [if_pos hxy]
      refine List.pairwise_cons.mpr ⟨?_, ih hys⟩
      intro b hb
      have hmem : b = x ∨ b ∈ ys := by
        have := (insertDesc_perm key x ys).mem_iff.mp hb
        simpa using this
      rcases hmem with rfl | hb'
      · exact Nat.le_of_lt hxy
      · exact hy b hb'
    · rw [if_neg hxy]
      refine List.pairwise_cons.mpr ⟨?_, h⟩
      intro b hb
      rcases List.mem_cons.mp hb with rfl | hb'
      · exact Nat.le_of_not_lt hxy
      · exact le_trans (hy b hb') (Nat.le_of_not_lt hxy)

theorem stableSortDesc_pairwise (key : α → Nat) (l : List α) :
    (stableSortDesc key l).Pairwise (fun a b => key b ≤ key a) := by
  induction l with
  | nil => simp [stableSortDesc]
  | cons x xs ih => exact insertDesc_pairwise key x _ ih

theorem filter_insertDesc (key : α → Nat) (s : Nat) (x : α) (l : List α) :
    (insertDesc key x l).filter (fun a => key a == s)
      = if key x = s then x :: l.filter (fun a => key a == s)
        else l.filter (fun a => key a == s) := by
  induction l with
  | nil =>
    by_cases hxs : key x = s <;> simp [insertDesc, List.filter_cons, hxs]
  | cons y ys ih =>
    simp only [insertDesc]
    by_cases hxy : key x < key y
    · rw [if_pos hxy]
      by_cases hys : key y = s
      · have hxs : ¬ key x = s := by omega
        simp [List.filter_cons, hys, hxs, ih]
      · by_cases hxs : key x = s <;> simp [List.filter_cons, hys, hxs, ih]
    · rw [if_neg hxy]
      by_cases hxs : key x = s <;> by_cases hys : key y = s <;>
        simp [List.filter_cons, hxs, hys]

/-! ## Sanity checks -/

example : calculate_age 2026 ("1.1.1999") = some 27 := by decide
example : calculate_age 2026 ("invalid_date") = none := by decide
example : calculate_age 2026 ("1.1") = none := by decide
example : calculate_age 2026 ("") = none := by decide
example : calculate_age 2026 ("1.1.2025") = none := by decide
example : pyStrip (pyLower ("Москва ")) = "москва" := by decide
example : replaceYo ("орёл") = "орел" := by decide
example : hasInfixCh ("camera").data ("https://vk.com/images/camera_100.png").data = true := by decide
example : hasInfixCh ("camera").data ("https://example.com/photo.jpg").data = false := by decide

example :
    build_search_params_v2 defaultConfig { sex := 1, age := some 25, city := "Москва" } =
      { count := 100, fields := "bdate,city,photo_100,sex", has_photo := 1, sort := 0,
        country := none, sex := some 2, age_from := 20, age_to := 30, city := some 1 } := by
  decide

example :
    get_popular_photos defaultConfig
      [⟨1, 0, 1⟩, ⟨2, 5, 0⟩, ⟨3, 0, 1⟩, ⟨4, 2, 2⟩] =
      [⟨2, 5, 0⟩, ⟨4, 2, 2⟩, ⟨1, 0, 1⟩] := by decide

/-! ## Helper lemmas -/

theorem find?_ext (p q : α → Bool) (l : List α) (h : ∀ a, p a = q a) :
    l.find? p = l.find? q := by
  induction l with
  | nil => rfl
  | cons x xs ih =>
    rw [List.find?_cons, List.find?_cons, h x]
    cases q x with
    | true => rfl
    | false => exact ih

theorem citiesLookup_empty : citiesLookup ("") = none := by decide

/-- The `city` key written by the effective `_build_search_params` is the
plain dictionary lookup of the lowercased city: the truthiness guard
`if city and city in CITIES` is redundant because the empty string is not a
key of the table. -/
theorem v2_city (cfg : Config) (u : UserInfo) :
    (build_search_params_v2 cfg u).city = citiesLookup (pyLower u.city) := by
  show (if pyLower u.city ≠ "" ∧ (citiesLookup (pyLower u.city)).isSome
      then citiesLookup (pyLower u.city) else none) = citiesLookup (pyLower u.city)
  cases hl : citiesLookup (pyLower u.city) with
  | none => simp [hl]
  | some cid =>
    have hne : pyLower u.city ≠ "" := by
      intro he
      rw [he, citiesLookup_empty] at hl
      exact Option.noConfusion hl
    simp [hl, hne]

theorem filter_stableSortDesc (key : α → Nat) (s : Nat) (l : List α) :
    (stableSortDesc key l).filter (fun a => key a == s)
      = l.filter (fun a => key a == s) := by
  induction l with
  | nil => rfl
  | cons x xs ih =>
    simp only [stableSortDesc, filter_insertDesc, ih]
    by_cases h : key x = s <;> simp [List.filter_cons, h]

/-! ## Claims -/

/-- C3: for every well-formed dot-separated `day.month.year` string whose
third part parses to the integer `Y`, `_calculate_age` returns
`current_year − Y` exactly when that difference lies in `[10, 100]` and
`none` otherwise; and it returns `none` for the empty string, for strings
with fewer than 3 dot-separated parts, and for strings whose third part is
not a valid integer. -/
theorem calculate_age_spec (cy : Int) (s d m y : String) (Y : Int) :
    (pySplit '.' s = [d, m, y] → pyInt y = some Y →
      calculate_age cy s = if 10 ≤ cy - Y ∧ cy - Y ≤ 100 then some (cy - Y) else none)
    ∧ calculate_age cy ("") = none
    ∧ ((pySplit '.' s).length < 3 → calculate_age cy s = none)
    ∧ (3 ≤ (pySplit '.' s).length → pyInt ((pySplit '.' s).getD 2 ("")) = none →
        calculate_age cy s = none) := by
  refine ⟨?_, rfl, ?_, ?_⟩
  · intro hsplit hy
    have hs : s ≠ "" := by
      intro h
      subst h
      have hlen := congrArg List.length hsplit
      simp [pySplit, splitOnCharList] at hlen
    simp only [calculate_age, if_neg hs, hsplit, hy]
    norm_num
    rw [hy]
  · intro hlen
    by_cases hs : s = ""
    · subst hs; rfl
    · simp only [calculate_age, if_neg hs, if_pos hlen]
  · intro hlen hnone
    by_cases hs : s = ""
    · subst hs; rfl
    · simp only [calculate_age, if_neg hs, if_neg (Nat.not_lt.mpr hlen), hnone]

/-- Witness for C3 at concrete inputs. -/
theorem calculate_age_spec_witness :
    (calculate_age 2026 ("1.1.1999")
        = if 10 ≤ (2026 : Int) - 1999 ∧ (2026 : Int) - 1999 ≤ 100 then some ((2026 : Int) - 1999)
          else none)
    ∧ calculate_age 2026 ("") = none
    ∧ calculate_age 2026 ("1.1") = none
    ∧ calculate_age 2026 ("1.1.abc") = none :=
  ⟨(calculate_age_spec 2026 ("1.1.1999") "1" "1" "1999" 1999).1 (by decide) (by decide),
   (calculate_age_spec 2026 ("x") "" "" "" 0).2.1,
   (calculate_age_spec 2026 ("1.1") "" "" "" 0).2.2.1 (by decide),
   (calculate_age_spec 2026 ("1.1.abc") "" "" "" 0).2.2.2 (by decide) (by decide)⟩

/-- C2 (amended): for every requester profile and every configured
`age_range`, the effective `_build_search_params` yields `age_from ≥ 18`
and `age_to ≤ 80`, and an unknown age yields exactly the band `[18, 35]`.
The original claim's further condition that neither bound leaves `[18, 80]`
is refuted by `age_band_exceeds_bounds`. -/
theorem age_band_bounds (cfg : Config) (u : UserInfo) :
    18 ≤ (build_search_params_v2 cfg u).age_from
    ∧ (build_search_params_v2 cfg u).age_to ≤ 80
    ∧ (u.age = none →
        (build_search_params_v2 cfg u).age_from = 18
          ∧ (build_search_params_v2 cfg u).age_to = 35) := by
  have h : ∀ oa, 18 ≤ (ageBand cfg oa).1 ∧ (ageBand cfg oa).2 ≤ 80 := by
    intro oa
    cases oa with
    | none => simp [ageBand]
    | some a =>
      simp only [ageBand]
      by_cases ha : a ≠ 0
      · rw [if_pos ha]
        exact ⟨le_max_left _ _, min_le_left _ _⟩
      · rw [if_neg ha]
        omega
  exact ⟨(h u.age).1, (h u.age).2, fun hn => by simp [build_search_params_v2, ageBand, hn]⟩

/-- Counterexample to C2 as stated: requester ages 100 and 10 are both
accepted by `_calculate_age` (plausibility range `[10, 100]`), yet with the
default `age_range` of 5 the band's lower bound exceeds 80 for age 100 and
its upper bound falls below 18 for age 10. -/
theorem age_band_exceeds_bounds :
    calculate_age 2026 ("1.1.1926") = some 100
    ∧ (build_search_params_v2 defaultConfig { sex := 2, age := some 100, city := "" }).age_from = 95
    ∧ ¬ (build_search_params_v2 defaultConfig
          { sex := 2, age := some 100, city := "" }).age_from ≤ 80
    ∧ calculate_age 2026 ("1.1.2016") = some 10
    ∧ (build_search_params_v2 defaultConfig { sex := 2, age := some 10, city := "" }).age_to = 15
    ∧ ¬ 18 ≤ (build_search_params_v2 defaultConfig
          { sex := 2, age := some 10, city := "" }).age_to := by
  decide

/-- Witness for C2 (amended) at concrete inputs. -/
theorem age_band_bounds_witness :
    (18 ≤ (build_search_params_v2 defaultConfig { sex := 1, age := some 25, city := "" }).age_from
      ∧ (build_search_params_v2 defaultConfig { sex := 1, age := some 25, city := "" }).age_to ≤ 80)
    ∧ ((build_search_params_v2 defaultConfig { sex := 1, age := none, city := "" }).age_from = 18
      ∧ (build_search_params_v2 defaultConfig { sex := 1, age := none, city := "" }).age_to = 35) :=
  ⟨⟨(age_band_bounds defaultConfig { sex := 1, age := some 25, city := "" }).1,
    (age_band_bounds defaultConfig { sex := 1, age := some 25, city := "" }).2.1⟩,
   (age_band_bounds defaultConfig { sex := 1, age := none, city := "" }).2.2 rfl⟩

/-- C1 (amended): the effective `_build_search_params` (the second
definition, the one bound on the class) only lowercases the requester's
city — it neither trims surrounding whitespace nor folds `ё` to `е` — and
an exact dictionary match of the lowercased form sets the `city` key to the
matched identifier, while no match leaves the key absent.  The trimming and
folding behaviour claimed for the effective operation belongs to the first,
shadowed definition and is refuted by
`build_search_params_city_trim_fold_fails`. -/
theorem build_search_params_city_lowercase_only (cfg : Config) (u : UserInfo) (cid : Int) :
    (citiesLookup (pyLower u.city) = some cid → (build_search_params_v2 cfg u).city = some cid)
    ∧ (citiesLookup (pyLower u.city) = none → (build_search_params_v2 cfg u).city = none) :=
  ⟨fun h => by rw [v2_city, h], fun h => by rw [v2_city, h]⟩

/-- Counterexample to C1 as stated: for requester city `"Москва "`
(trailing space) the lowercased-trimmed-folded form is a key of the city
table — the first definition's own lookup maps it to id 1 — yet the
effective `_build_search_params` leaves the `city` key unset, because it
neither trims nor folds before the dictionary lookup. -/
theorem build_search_params_city_trim_fold_fails :
    cityLookupV1 (replaceYo (pyStrip (pyLower ("Москва ")))) (pyStrip (pyLower ("Москва "))) = some 1
    ∧ (build_search_params_v2 defaultConfig
        { sex := 1, age := some 25, city := "Москва " }).city = none := by
  decide

/-- Witness for C1 (amended) at concrete inputs. -/
theorem build_search_params_city_lowercase_only_witness :
    (build_search_params_v2 defaultConfig { sex := 1, age := some 25, city := "Москва" }).city
        = some 1
    ∧ (build_search_params_v2 defaultConfig { sex := 1, age := some 25, city := "Лондон" }).city
        = none :=
  ⟨(build_search_params_city_lowercase_only defaultConfig
      { sex := 1, age := some 25, city := "Москва" } 1).1 (by decide),
   (build_search_params_city_lowercase_only defaultConfig
      { sex := 1, age := some 25, city := "Лондон" } 0).2 (by decide)⟩

/-- C10 (amended): the two textual definitions of `_build_search_params`
are not extensionally equal.  They agree on `count`, `fields`, `has_photo`,
`sort`, `sex`, `age_from` and `age_to` for every profile, but the first
always sets `country = 1` while the second never sets `country`; the `city`
keys agree whenever the lowercased city string needs no trimming and no
`ё`-folding.  Inequality is exhibited by
`build_search_params_variants_differ`. -/
theorem build_search_params_variants_agreement (cfg : Config) (u : UserInfo) :
    (build_search_params_v1 cfg u).count = (build_search_params_v2 cfg u).count
    ∧ (build_search_params_v1 cfg u).fields = (build_search_params_v2 cfg u).fields
    ∧ (build_search_params_v1 cfg u).has_photo = (build_search_params_v2 cfg u).has_photo
    ∧ (build_search_params_v1 cfg u).sort = (build_search_params_v2 cfg u).sort
    ∧ (build_search_params_v1 cfg u).sex = (build_search_params_v2 cfg u).sex
    ∧ (build_search_params_v1 cfg u).age_from = (build_search_params_v2 cfg u).age_from
    ∧ (build_search_params_v1 cfg u).age_to = (build_search_params_v2 cfg u).age_to
    ∧ (build_search_params_v1 cfg u).country = some 1
    ∧ (build_search_params_v2 cfg u).country = none
    ∧ (pyStrip (pyLower u.city) = pyLower u.city → replaceYo (pyLower u.city) = pyLower u.city →
        (build_search_params_v1 cfg u).city = (build_search_params_v2 cfg u).city) := by
  refine ⟨rfl, rfl, rfl, rfl, rfl, rfl, rfl, rfl, rfl, ?_⟩
  intro h1 h2
  have hv1 : (build_search_params_v1 cfg u).city
      = cityLookupV1 (replaceYo (pyStrip (pyLower u.city))) (pyStrip (pyLower u.city)) := rfl
  rw [hv1, h1, h2, v2_city]
  unfold cityLookupV1 citiesLookup
  refine congrArg (Option.map Prod.snd) (find?_ext _ _ CITIES ?_)
  intro a
  by_cases h : pyLower u.city = a.1
  · simp [h]
  · simp only [h]
    simp
    exact fun hh => h (Eq.symm hh)

/-- Counterexample to C10 as stated: on the spec's own end-to-end profile
the two definitions return different parameter records — the first sets
`country = 1`, the second sets no `country` at all. -/
theorem build_search_params_variants_differ :
    build_search_params_v1 defaultConfig { sex := 1, age := some 25, city := "Москва" }
        ≠ build_search_params_v2 defaultConfig { sex := 1, age := some 25, city := "Москва" }
    ∧ (build_search_params_v1 defaultConfig
        { sex := 1, age := some 25, city := "Москва" }).country = some 1
    ∧ (build_search_params_v2 defaultConfig
        { sex := 1, age := some 25, city := "Москва" }).country = none := by
  decide

/-- Witness for C10 (amended) at a concrete input. -/
theorem build_search_params_variants_agreement_witness :
    (build_search_params_v1 defaultConfig { sex := 1, age := some 25, city := "Москва" }).sex
        = (build_search_params_v2 defaultConfig { sex := 1, age := some 25, city := "Москва" }).sex
    ∧ (build_search_params_v1 defaultConfig
          { sex := 1, age := some 25, city := "Москва" }).country = some 1
    ∧ (build_search_params_v1 defaultConfig { sex := 1, age := some 25, city := "Москва" }).city
        = (build_search_params_v2 defaultConfig
            { sex := 1, age := some 25, city := "Москва" }).city :=
  ⟨(build_search_params_variants_agreement defaultConfig
      { sex := 1, age := some 25, city := "Москва" }).2.2.2.2.1,
   (build_search_params_variants_agreement defaultConfig
      { sex := 1, age := some 25, city := "Москва" }).2.2.2.2.2.2.2.1,
   (build_search_params_variants_agreement defaultConfig
      { sex := 1, age := some 25, city := "Москва" }).2.2.2.2.2.2.2.2.2 (by decide) (by decide)⟩

/-- C7: the ranking step of `get_popular_photos` returns a list that is
sorted non-increasing by the engagement score `likes + comments`; photos of
equal score keep their original relative input order (the output restricted
to any fixed score is a sublist of the input restricted to that score); the
output length is at most the configured `max_photos`; and empty input
yields empty output. -/
theorem get_popular_photos_ranking (cfg : Config) (items : List Photo) (s : Nat) :
    (get_popular_photos cfg items).Pairwise (fun a b => score b ≤ score a)
    ∧ List.Sublist ((get_popular_photos cfg items).filter (fun p => score p == s))
        (items.filter (fun p => score p == s))
    ∧ (get_popular_photos cfg items).length ≤ cfg.max_photos
    ∧ (items = [] → get_popular_photos cfg items = []) := by
  have hdef : get_popular_photos cfg items
      = (if ((stableSortDesc score items).filter
              (fun p => cfg.min_photo_likes ≤ p.likes)).length < 3
            ∧ stableSortDesc score items ≠ []
          then stableSortDesc score items
          else (stableSortDesc score items).filter
              (fun p => cfg.min_photo_likes ≤ p.likes)).take cfg.max_photos := rfl
  obtain ⟨mid, hm, hmsub⟩ :
      ∃ mid, get_popular_photos cfg items = mid.take cfg.max_photos
        ∧ List.Sublist mid (stableSortDesc score items) := by
    refine ⟨_, hdef, ?_⟩
    by_cases hc : ((stableSortDesc score items).filter
        (fun p => cfg.min_photo_likes ≤ p.likes)).length < 3 ∧ stableSortDesc score items ≠ []
    · rw [if_pos hc]
    · rw [if_neg hc]
      exact List.filter_sublist _
  have hout_sub : List.Sublist (get_popular_photos cfg items) (stableSortDesc score items) := by
    rw [hm]
    exact (List.take_sublist _ _).trans hmsub
  refine ⟨(stableSortDesc_pairwise score items).sublist hout_sub, ?_, ?_, ?_⟩
  · have h1 := hout_sub.filter (fun p => score p == s)
    rw [filter_stableSortDesc] at h1
    exact h1
  · rw [hm]
    exact List.length_take_le _ _
  · intro h
    subst h
    simp [get_popular_photos, stableSortDesc]

/-- Witness for C7 at concrete inputs. -/
theorem get_popular_photos_ranking_witness :
    (get_popular_photos defaultConfig [⟨1, 0, 1⟩, ⟨2, 5, 0⟩, ⟨3, 0, 1⟩, ⟨4, 2, 2⟩]).Pairwise
        (fun a b => score b ≤ score a)
    ∧ List.Sublist
        ((get_popular_photos defaultConfig [⟨1, 0, 1⟩, ⟨2, 5, 0⟩, ⟨3, 0, 1⟩, ⟨4, 2, 2⟩]).filter
          (fun p => score p == 1))
        (([⟨1, 0, 1⟩, ⟨2, 5, 0⟩, ⟨3, 0, 1⟩, ⟨4, 2, 2⟩] : List Photo).filter
          (fun p => score p == 1))
    ∧ (get_popular_photos defaultConfig [⟨1, 0, 1⟩, ⟨2, 5, 0⟩, ⟨3, 0, 1⟩, ⟨4, 2, 2⟩]).length
        ≤ defaultConfig.max_photos
    ∧ get_popular_photos defaultConfig ([] : List Photo) = [] :=
  ⟨(get_popular_photos_ranking defaultConfig [⟨1, 0, 1⟩, ⟨2, 5, 0⟩, ⟨3, 0, 1⟩, ⟨4, 2, 2⟩] 1).1,
   (get_popular_photos_ranking defaultConfig [⟨1, 0, 1⟩, ⟨2, 5, 0⟩, ⟨3, 0, 1⟩, ⟨4, 2, 2⟩] 1).2.1,
   (get_popular_photos_ranking defaultConfig [⟨1, 0, 1⟩, ⟨2, 5, 0⟩, ⟨3, 0, 1⟩, ⟨4, 2, 2⟩] 1).2.2.1,
   (get_popular_photos_ranking defaultConfig [] 0).2.2.2 rfl⟩

/-- C8 (amended): when fewer than 3 photos reach the `min_photo_likes`
threshold and the input is non-empty, the ranking step returns the first
`max_photos` entries of the full unfiltered score-sorted list — a
score-sorted permutation of the whole input, not a threshold-filtered list.
The original claim's "all input photos" fails because of the final
truncation, exhibited by `get_popular_photos_fallback_truncated`. -/
theorem get_popular_photos_fallback (cfg : Config) (items : List Photo)
    (hfew : ((stableSortDesc score items).filter
        (fun p => cfg.min_photo_likes ≤ p.likes)).length < 3)
    (hne : items ≠ []) :
    get_popular_photos cfg items = (stableSortDesc score items).take cfg.max_photos
    ∧ List.Perm (stableSortDesc score items) items
    ∧ (stableSortDesc score items).Pairwise (fun a b => score b ≤ score a) := by
  have hsne : stableSortDesc score items ≠ [] := by
    intro h
    have hp := stableSortDesc_perm score items
    rw [h] at hp
    exact hne hp.nil_eq.symm
  refine ⟨?_, stableSortDesc_perm score items, stableSortDesc_pairwise score items⟩
  show (if ((stableSortDesc score items).filter
          (fun p => cfg.min_photo_likes ≤ p.likes)).length < 3
        ∧ stableSortDesc score items ≠ []
      then stableSortDesc score items
      else (stableSortDesc score items).filter
          (fun p => cfg.min_photo_likes ≤ p.likes)).take cfg.max_photos
    = (stableSortDesc score items).take cfg.max_photos
  rw [if_pos ⟨hfew, hsne⟩]

/-- Counterexample to C8 as stated: four photos, all with zero likes and
zero comments, under the default configuration (`min_photo_likes = 1`,
`max_photos = 3`): fewer than 3 photos clear the threshold and the input is
non-empty, yet the operation returns only 3 of the 4 score-sorted photos,
not the full list. -/
theorem get_popular_photos_fallback_truncated :
    ((stableSortDesc score [⟨1, 0, 0⟩, ⟨2, 0, 0⟩, ⟨3, 0, 0⟩, ⟨4, 0, 0⟩]).filter
        (fun p => defaultConfig.min_photo_likes ≤ p.likes)).length < 3
    ∧ ([⟨1, 0, 0⟩, ⟨2, 0, 0⟩, ⟨3, 0, 0⟩, ⟨4, 0, 0⟩] : List Photo) ≠ []
    ∧ get_popular_photos defaultConfig [⟨1, 0, 0⟩, ⟨2, 0, 0⟩, ⟨3, 0, 0⟩, ⟨4, 0, 0⟩]
        ≠ stableSortDesc score [⟨1, 0, 0⟩, ⟨2, 0, 0⟩, ⟨3, 0, 0⟩, ⟨4, 0, 0⟩]
    ∧ (get_popular_photos defaultConfig [⟨1, 0, 0⟩, ⟨2, 0, 0⟩, ⟨3, 0, 0⟩, ⟨4, 0, 0⟩]).length = 3
    ∧ ([⟨1, 0, 0⟩, ⟨2, 0, 0⟩, ⟨3, 0, 0⟩, ⟨4, 0, 0⟩] : List Photo).length = 4 := by
  decide

/-- Witness for C8 (amended) at a concrete input. -/
theorem get_popular_photos_fallback_witness :
    get_popular_photos defaultConfig [⟨1, 0, 0⟩, ⟨2, 0, 0⟩, ⟨3, 0, 0⟩, ⟨4, 0, 0⟩]
        = (stableSortDesc score [⟨1, 0, 0⟩, ⟨2, 0, 0⟩, ⟨3, 0, 0⟩, ⟨4, 0, 0⟩]).take
            defaultConfig.max_photos
    ∧ List.Perm (stableSortDesc score [⟨1, 0, 0⟩, ⟨2, 0, 0⟩, ⟨3, 0, 0⟩, ⟨4, 0, 0⟩])
        [⟨1, 0, 0⟩, ⟨2, 0, 0⟩, ⟨3, 0, 0⟩, ⟨4, 0, 0⟩]
    ∧ (stableSortDesc score [⟨1, 0, 0⟩, ⟨2, 0, 0⟩, ⟨3, 0, 0⟩, ⟨4, 0, 0⟩]).Pairwise
        (fun a b => score b ≤ score a) :=
  get_popular_photos_fallback defaultConfig [⟨1, 0, 0⟩, ⟨2, 0, 0⟩, ⟨3, 0, 0⟩, ⟨4, 0, 0⟩]
    (by decide) (by decide)

/-- C9: the candidate-building loop of `search_people` keeps exactly the
raw entries that pass `keepUser`; any entry flagged deactivated is dropped
regardless of its other fields; any entry whose photo URL is absent (or
empty) or contains the `camera` placeholder pattern is dropped; and every
surviving entry contributes its normalized candidate to the output. -/
theorem search_people_filtering (current_year : Int) (items : List RawUser) :
    processItems current_year items = (items.filter keepUser).map (mkCandidate current_year)
    ∧ (∀ u : RawUser, truthyOptStr u.deactivated = true → keepUser u = false)
    ∧ (∀ u : RawUser,
        u.photo_100.getD ("") = "" ∨ hasInfixCh ("camera").data (u.photo_100.getD ("")).data = true →
        keepUser u = false)
    ∧ (∀ u ∈ items, keepUser u = true →
        mkCandidate current_year u ∈ processItems current_year items) := by
  have hmain : ∀ l : List RawUser,
      processItems current_year l = (l.filter keepUser).map (mkCandidate current_year) := by
    intro l
    induction l with
    | nil => rfl
    | cons u rest ih =>
      cases hd : truthyOptStr u.deactivated with
      | true => simp [processItems, List.filter_cons, keepUser, hd, ih]
      | false =>
        by_cases hpe : u.photo_100.getD ("") = ""
        · simp [processItems, List.filter_cons, keepUser, hd, hpe, ih]
        · cases hcam : hasInfixCh ("camera").data (u.photo_100.getD ("")).data with
          | true => simp [processItems, List.filter_cons, keepUser, hd, hpe, hcam, ih]
          | false => simp [processItems, List.filter_cons, keepUser, hd, hpe, hcam, ih]
  refine ⟨hmain items, ?_, ?_, ?_⟩
  · intro u h
    simp [keepUser, h]
  · intro u h
    rcases h with h | h
    · simp [keepUser, h]
    · simp [keepUser, h]
  · intro u hu hk
    rw [hmain items]
    exact List.mem_map_of_mem _ (List.mem_filter.mpr ⟨hu, hk⟩)

/-- Witness for C9 at concrete inputs: a deactivated entry, an entry with
no photo, an entry with the camera placeholder, and a surviving entry. -/
theorem search_people_filtering_witness :
    processItems 2026
        [⟨5, "Иван", "Петров", "", some ("banned"), some ("https://example.com/a.jpg"), "Москва", 2⟩,
         ⟨6, "Пётр", "Сидоров", "1.1", none, none, "", 2⟩,
         ⟨7, "Анна", "Иванова", "15.5.1995", none,
            some ("https://vk.com/images/camera_100.png"), "Москва", 1⟩,
         ⟨8, "Мария", "Кузнецова", "1.1.1999", none,
            some ("https://example.com/photo.jpg"), "Москва", 1⟩]
      = (([⟨5, "Иван", "Петров", "", some ("banned"), some ("https://example.com/a.jpg"), "Москва", 2⟩,
           ⟨6, "Пётр", "Сидоров", "1.1", none, none, "", 2⟩,
           ⟨7, "Анна", "Иванова", "15.5.1995", none,
              some ("https://vk.com/images/camera_100.png"), "Москва", 1⟩,
           ⟨8, "Мария", "Кузнецова", "1.1.1999", none,
              some ("https://example.com/photo.jpg"), "Москва", 1⟩] : List RawUser).filter
          keepUser).map (mkCandidate 2026)
    ∧ keepUser
        ⟨5, "Иван", "Петров", "", some ("banned"), some ("https://example.com/a.jpg"), "Москва", 2⟩
        = false
    ∧ keepUser
        ⟨7, "Анна", "Иванова", "15.5.1995", none,
          some ("https://vk.com/images/camera_100.png"), "Москва", 1⟩
        = false
    ∧ mkCandidate 2026
        ⟨8, "Мария", "Кузнецова", "1.1.1999", none,
          some ("https://example.com/photo.jpg"), "Москва", 1⟩
        ∈ processItems 2026
          [⟨5, "Иван", "Петров", "", some ("banned"), some ("https://example.com/a.jpg"), "Москва", 2⟩,
           ⟨6, "Пётр", "Сидоров", "1.1", none, none, "", 2⟩,
           ⟨7, "Анна", "Иванова", "15.5.1995", none,
              some ("https://vk.com/images/camera_100.png"), "Москва", 1⟩,
           ⟨8, "Мария", "Кузнецова", "1.1.1999", none,
              some ("https://example.com/photo.jpg"), "Москва", 1⟩] :=
  ⟨(search_people_filtering 2026 _).1,
   (search_people_filtering 2026
      ([] : List RawUser)).2.1
      ⟨5, "Иван", "Петров", "", some ("banned"), some ("https://example.com/a.jpg"), "Москва", 2⟩
      (by decide),
   (search_people_filtering 2026 ([] : List RawUser)).2.2.1
      ⟨7, "Анна", "Иванова", "15.5.1995", none,
        some ("https://vk.com/images/camera_100.png"), "Москва", 1⟩
      (Or.inr (by decide)),
   (search_people_filtering 2026
      [⟨5, "Иван", "Петров", "", some ("banned"), some ("https://example.com/a.jpg"), "Москва", 2⟩,
       ⟨6, "Пётр", "Сидоров", "1.1", none, none, "", 2⟩,
       ⟨7, "Анна", "Иванова", "15.5.1995", none,
          some ("https://vk.com/images/camera_100.png"), "Москва", 1⟩,
       ⟨8, "Мария", "Кузнецова", "1.1.1999", none,
          some ("https://example.com/photo.jpg"), "Москва", 1⟩]).2.2.2
      ⟨8, "Мария", "Кузнецова", "1.1.1999", none,
        some ("https://example.com/photo.jpg"), "Москва", 1⟩
      (by decide) (by decide)⟩

/-- C4 (amended): `search_people` returns at most 50 candidates, for every
current year, every reordering of the filtered candidates and every raw
search result.  The claim's blacklist clause fails — `search_people` never
consults the store — as exhibited by `search_people_returns_blacklisted`. -/
theorem search_people_at_most_50 (current_year : Int)
    (shuffle : List Candidate → List Candidate) (items : List RawUser) :
    (search_people current_year shuffle items).length ≤ 50 :=
  List.length_take_le _ _

/-- Counterexample to C4 as stated: candidate 99 is in user 1's blacklist
as recorded by the store, yet `search_people` returns it.  The shuffle is
instantiated with the identity function, which is the only possible outcome
of `random.shuffle` on a one-element list, so the run shown is the run the
source performs. -/
theorem search_people_returns_blacklisted :
    get_blacklist { users := [1], favorites := [], blacklist := [⟨1, 99⟩], clock := 0 } 1 = [99]
    ∧ search_people 2026 id
        [⟨99, "Анна", "Иванова", "1.1.1999", none,
          some ("https://example.com/photo.jpg"), "Москва", 1⟩]
        = [⟨99, "Анна", "Иванова", some 27, "Москва", 1⟩] := by
  decide

/-- C5: from any store state in which the user exists and the pair is not
yet favorited, calling `add_to_favorites` twice with the same
`(user_id, candidate_id)` returns `true` then `false` — the duplicate is
reported through the boolean, never raised — the second call leaves the
state unchanged, and `get_favorites` afterwards holds exactly one row for
the pair. -/
theorem add_to_favorites_twice (db : DBState) (u c : Int) (fn ln fn2 ln2 : String)
    (hu : u ∈ db.users)
    (habs : db.favorites.any (fun r => r.user_id == u && r.candidate_id == c) = false) :
    (add_to_favorites db u c fn ln).1 = true
    ∧ (add_to_favorites (add_to_favorites db u c fn ln).2 u c fn2 ln2).1 = false
    ∧ (add_to_favorites (add_to_favorites db u c fn ln).2 u c fn2 ln2).2
        = (add_to_favorites db u c fn ln).2
    ∧ ((get_favorites (add_to_favorites (add_to_favorites db u c fn ln).2 u c fn2 ln2).2 u).countP
        (fun r => r.candidate_id == c)) = 1 := by
  have hnotnot : ¬ u ∉ db.users := fun h => h hu
  have e1 : add_to_favorites db u c fn ln
      = (true, { db with
                 favorites := db.favorites ++ [⟨u, c, fn, ln, db.clock⟩]
                 clock := db.clock + 1 }) := by
    simp [add_to_favorites, hnotnot, habs]
  have hany1 :
      ((db.favorites ++ [⟨u, c, fn, ln, db.clock⟩] : List FavRow)).any
        (fun r => r.user_id == u && r.candidate_id == c) = true := by
    simp
  have e2 : add_to_favorites
      ({ db with
         favorites := db.favorites ++ [⟨u, c, fn, ln, db.clock⟩]
         clock := db.clock + 1 }) u c fn2 ln2
      = (false, { db with
                  favorites := db.favorites ++ [⟨u, c, fn, ln, db.clock⟩]
                  clock := db.clock + 1 }) := by
    simp [add_to_favorites, hnotnot, hany1]
  rw [e1, e2]
  refine ⟨rfl, rfl, rfl, ?_⟩
  have hperm := (stableSortDesc_perm (fun r : FavRow => r.created_at)
      ((db.favorites ++ [⟨u, c, fn, ln, db.clock⟩] : List FavRow).filter
        (fun r => r.user_id == u))).countP_eq (fun r => r.candidate_id == c)
  rw [get_favorites, hperm, List.filter_append, List.countP_append]
  have hall : ∀ x ∈ db.favorites, ¬(x.user_id = u ∧ x.candidate_id = c) := by
    simpa using habs
  have hold : ((db.favorites.filter (fun r => r.user_id == u)).countP
      (fun r => r.candidate_id == c)) = 0 := by
    rw [List.countP_eq_zero]
    intro r hr
    have hmem := List.mem_filter.mp hr
    intro hc
    exact hall r hmem.1 ⟨by simpa using hmem.2, by simpa using hc⟩
  rw [hold]
  simp

/-- Witness for C5 at a concrete store state. -/
theorem add_to_favorites_twice_witness :
    (add_to_favorites { users := [1], favorites := [], blacklist := [], clock := 0 }
        1 99 ("Анна") "Иванова").1 = true
    ∧ (add_to_favorites
        (add_to_favorites { users := [1], favorites := [], blacklist := [], clock := 0 }
          1 99 ("Анна") "Иванова").2 1 99 ("А") "И").1 = false
    ∧ (add_to_favorites
        (add_to_favorites { users := [1], favorites := [], blacklist := [], clock := 0 }
          1 99 ("Анна") "Иванова").2 1 99 ("А") "И").2
        = (add_to_favorites { users := [1], favorites := [], blacklist := [], clock := 0 }
            1 99 ("Анна") "Иванова").2
    ∧ ((get_favorites
          (add_to_favorites
            (add_to_favorites { users := [1], favorites := [], blacklist := [], clock := 0 }
              1 99 ("Анна") "Иванова").2 1 99 ("А") "И").2 1).countP
        (fun r => r.candidate_id == 99)) = 1 :=
  add_to_favorites_twice { users := [1], favorites := [], blacklist := [], clock := 0 }
    1 99 ("Анна") "Иванова" "А" "И" (by decide) (by decide)

/-- C6: from any store state in which the user exists and the pair is not
yet blacklisted, calling `add_to_blacklist` twice with the same
`(user_id, candidate_id)` returns `true` both times, the second call
leaves the state unchanged (idempotence), and `get_blacklist` afterwards
contains the candidate id exactly once. -/
theorem add_to_blacklist_twice (db : DBState) (u c : Int)
    (hu : u ∈ db.users)
    (habs : db.blacklist.any (fun r => r.user_id == u && r.candidate_id == c) = false) :
    (add_to_blacklist db u c).1 = true
    ∧ (add_to_blacklist (add_to_blacklist db u c).2 u c).1 = true
    ∧ (add_to_blacklist (add_to_blacklist db u c).2 u c).2 = (add_to_blacklist db u c).2
    ∧ (get_blacklist (add_to_blacklist (add_to_blacklist db u c).2 u c).2 u).count c = 1 := by
  have hnotnot : ¬ u ∉ db.users := fun h => h hu
  have e1 : add_to_blacklist db u c
      = (true, { db with blacklist := db.blacklist ++ [⟨u, c⟩] }) := by
    simp [add_to_blacklist, hnotnot, habs]
  have hany1 : ((db.blacklist ++ [⟨u, c⟩] : List BlackRow)).any
      (fun r => r.user_id == u && r.candidate_id == c) = true := by
    simp
  have e2 : add_to_blacklist ({ db with blacklist := db.blacklist ++ [⟨u, c⟩] }) u c
      = (true, { db with blacklist := db.blacklist ++ [⟨u, c⟩] }) := by
    simp [add_to_blacklist, hnotnot, hany1]
  rw [e1, e2]
  refine ⟨rfl, rfl, rfl, ?_⟩
  rw [get_blacklist]
  have hall : ∀ x ∈ db.blacklist, ¬(x.user_id = u ∧ x.candidate_id = c) := by
    simpa using habs
  have hfb : ({ db with blacklist := db.blacklist ++ [⟨u, c⟩] } : DBState).blacklist
      = db.blacklist ++ [⟨u, c⟩] := rfl
  rw [hfb, List.filter_append, List.map_append, List.count_append]
  have hold : ((db.blacklist.filter (fun r => r.user_id == u)).map
      (fun r => r.candidate_id)).count c = 0 := by
    rw [List.count_eq_zero]
    intro hmem
    obtain ⟨r, hr, hrc⟩ := List.mem_map.mp hmem
    have hmf := List.mem_filter.mp hr
    exact hall r hmf.1 ⟨by simpa using hmf.2, hrc⟩
  rw [hold]
  simp

/-- Witness for C6 at a concrete store state. -/
theorem add_to_blacklist_twice_witness :
    (add_to_blacklist { users := [1], favorites := [], blacklist := [], clock := 0 } 1 99).1 = true
    ∧ (add_to_blacklist
        (add_to_blacklist { users := [1], favorites := [], blacklist := [], clock := 0 }
          1 99).2 1 99).1 = true
    ∧ (add_to_blacklist
        (add_to_blacklist { users := [1], favorites := [], blacklist := [], clock := 0 }
          1 99).2 1 99).2
        = (add_to_blacklist { users := [1], favorites := [], blacklist := [], clock := 0 } 1 99).2
    ∧ (get_blacklist
        (add_to_blacklist
          (add_to_blacklist { users := [1], favorites := [], blacklist := [], clock := 0 }
            1 99).2 1 99).2 1).count 99 = 1 :=
  add_to_blacklist_twice { users := [1], favorites := [], blacklist := [], clock := 0 } 1 99
    (by decide) (by decide)

end VKinder
